import Mathlib

/-!
Shallow embedding of `src/components/script_traits/script_msg.rs`: the
`LayoutMsg`, `EventResult`, `LogEntry` and `ScriptMsg` message taxonomies
of the constellation protocol, together with the payload types they
mention.  Payload types imported from other crates (euclid, url,
ipc_channel, offscreen_gl_context, style_traits, canvas_traits, msg,
gfx_traits) are modelled as opaque inhabited wrappers: the claims under
study concern the shape of the message taxonomy, not the internals of
those collaborator types.
-/

/-- Opaque pipeline identity (`msg::constellation_msg::PipelineId`):
a unique tag for one script+layout pair. -/
structure PipelineId where
  index : Nat
deriving DecidableEq, Repr

/-- Opaque iframe-slot identity (`msg::constellation_msg::SubpageId`). -/
structure SubpageId where
  index : Nat
deriving DecidableEq, Repr

/-- Opaque compositing-layer identity (`gfx_traits::LayerId`). -/
structure LayerId where
  index : Nat
deriving DecidableEq, Repr

/-- Modelled from the spec: `AnimationState` (declared in the
`script_traits` crate outside `src/`) is an enum recording whether a
pipeline currently has running animations (running/idle). -/
inductive AnimationState where
  | AnimationsPresent
  | NoAnimationsPresent
deriving DecidableEq, Repr

/-- Modelled from the spec: `DocumentState` (outside `src/`) is a coarse
document lifecycle marker used by screenshot/reftest tooling. -/
structure DocumentState where
  code : Nat
deriving DecidableEq, Repr

/-- Opaque mouse-button payload (`MouseButton`, outside `src/`). -/
structure MouseButton where
  code : Nat
deriving DecidableEq, Repr

/-- Opaque mouse-event-type payload (`MouseEventType`, outside `src/`). -/
structure MouseEventType where
  code : Nat
deriving DecidableEq, Repr

/-- Opaque mozbrowser event payload (`MozBrowserEvent`, outside `src/`). -/
structure MozBrowserEvent where
  code : Nat
deriving DecidableEq, Repr

/-- Opaque key code (`msg::constellation_msg::Key`). -/
structure Key where
  code : Nat
deriving DecidableEq, Repr

/-- Opaque key state, pressed or released (`KeyState`). -/
structure KeyState where
  code : Nat
deriving DecidableEq, Repr

/-- Opaque modifier bitset (`KeyModifiers`). -/
structure KeyModifiers where
  bits : Nat
deriving DecidableEq, Repr

/-- Opaque URL value (`url::Url`), modelled by its textual form. -/
structure Url where
  spec : String
deriving DecidableEq, Repr

/-- Modelled from the spec: `LoadData` (outside `src/`) describes a
navigation request: target URL plus referrer/method metadata. -/
structure LoadData where
  url : Url
  metaCode : Nat
deriving DecidableEq, Repr

/-- Modelled from the spec: `NavigationDirection` (outside `src/`) is
the forward-or-back direction of an iframe history navigation. -/
inductive NavigationDirection where
  | Forward
  | Back
deriving DecidableEq, Repr

/-- Modelled from the spec: `IFrameLoadInfo` (outside `src/`) bundles a
new iframe's navigation target and parent linkage: parent `PipelineId`,
`SubpageId`, new `PipelineId`, `LoadData`. -/
structure IFrameLoadInfo where
  containingPipelineId : PipelineId
  newSubpageId : SubpageId
  newPipelineId : PipelineId
  loadData : LoadData
deriving DecidableEq, Repr

/-- Opaque drawing-command payload type (`canvas_traits::CanvasMsg`). -/
structure CanvasMsg where
  code : Nat
deriving DecidableEq, Repr

/-- Opaque cursor descriptor (`style_traits::cursor::Cursor`). -/
structure Cursor where
  code : Nat
deriving DecidableEq, Repr

/-- Opaque viewport constraints (`style_traits::viewport::ViewportConstraints`). -/
structure ViewportConstraints where
  code : Nat
deriving DecidableEq, Repr

/-- Opaque GPU context attributes (`offscreen_gl_context::GLContextAttributes`). -/
structure GLContextAttributes where
  bits : Nat
deriving DecidableEq, Repr

/-- Opaque WebGL capability-limits descriptor (`offscreen_gl_context::GLLimits`). -/
structure GLLimits where
  bits : Nat
deriving DecidableEq, Repr

/-- An `f32` scalar modelled by its 32-bit pattern: the protocol only
moves these values across channels, it never computes with them. -/
structure F32 where
  bits : Nat
deriving DecidableEq, Repr

/-- Two-dimensional point (`euclid::point::Point2D`). -/
structure Point2D (α : Type) where
  x : α
  y : α
deriving DecidableEq, Repr

/-- Two-dimensional size (`euclid::size::Size2D`). -/
structure Size2D (α : Type) where
  width : α
  height : α
deriving DecidableEq, Repr

/-- The sending half of a typed ipc channel
(`ipc_channel::ipc::IpcSender<α>`), modelled by the identity of the
underlying one-directional pipe; `α` is the type of values the holder
may send through it. -/
structure IpcSender (α : Type) where
  port : Nat
deriving DecidableEq, Repr

/-- Messages from the layout to the constellation (`LayoutMsg`). -/
inductive LayoutMsg where
  /-- Indicates whether this pipeline is currently running animations. -/
  | ChangeRunningAnimationsState (p : PipelineId) (a : AnimationState)
  /-- Requests that the constellation inform the compositor of a cursor change. -/
  | SetCursor (c : Cursor)
  /-- Notifies the constellation that the viewport has been constrained. -/
  | ViewportConstrained (p : PipelineId) (v : ViewportConstraints)
deriving DecidableEq, Repr

/-- Whether a DOM event was prevented by web content (`EventResult`). -/
inductive EventResult where
  /-- Allowed by web content. -/
  | DefaultAllowed
  /-- Prevented by web content. -/
  | DefaultPrevented
deriving DecidableEq, Repr

/-- A log entry reported to the constellation (`LogEntry`). -/
inductive LogEntry where
  /-- Panic, with a reason and backtrace. -/
  | Panic (reason : String) (backtrace : String)
  /-- Error, with a reason. -/
  | Error (reason : String)
  /-- Warning, with a reason. -/
  | Warn (reason : String)
deriving DecidableEq, Repr

/-- Messages from the script to the constellation (`ScriptMsg`), in
source declaration order. -/
inductive ScriptMsg where
  /-- Indicates whether this pipeline is currently running animations. -/
  | ChangeRunningAnimationsState (p : PipelineId) (a : AnimationState)
  /-- Requests that a new 2D canvas thread be created. -/
  | CreateCanvasPaintThread (size : Size2D Int)
      (reply : IpcSender (IpcSender CanvasMsg))
  /-- Requests that a new WebGL thread be created. -/
  | CreateWebGLPaintThread (size : Size2D Int) (attrs : GLContextAttributes)
      (reply : IpcSender (Except String (IpcSender CanvasMsg × GLLimits)))
  /-- Dispatched after the DOM load event has fired on a document. -/
  | DOMLoad (p : PipelineId)
  /-- Notifies the constellation that this frame has received focus. -/
  | Focus (p : PipelineId)
  /-- Re-send a mouse button event that was sent to the parent window. -/
  | ForwardMouseButtonEvent (p : PipelineId) (t : MouseEventType)
      (b : MouseButton) (pt : Point2D F32)
  /-- Re-send a mouse move event that was sent to the parent window. -/
  | ForwardMouseMoveEvent (p : PipelineId) (pt : Point2D F32)
  /-- Requests the current contents of the clipboard. -/
  | GetClipboardContents (reply : IpcSender String)
  /-- Head tag finished parsing. -/
  | HeadParsed
  /-- All pending loads are complete. -/
  | LoadComplete (p : PipelineId)
  /-- A new load has been requested. -/
  | LoadUrl (p : PipelineId) (d : LoadData)
  /-- Dispatch a mozbrowser event to a given iframe; experimental mode only. -/
  | MozBrowserEvent (p : PipelineId) (s : SubpageId) (e : MozBrowserEvent)
  /-- HTMLIFrameElement forward or back navigation. -/
  | Navigate (target : Option (PipelineId × SubpageId)) (dir : NavigationDirection)
  /-- Favicon detected. -/
  | NewFavicon (u : Url)
  /-- Status message to be displayed in the chrome. -/
  | NodeStatus (status : Option String)
  /-- Notification that this iframe should be removed. -/
  | RemoveIFrame (p : PipelineId) (reply : Option (IpcSender Unit))
  /-- Change pipeline visibility. -/
  | SetVisible (p : PipelineId) (visible : Bool)
  /-- Notifies constellation that an iframe's visibility has been changed. -/
  | VisibilityChangeComplete (p : PipelineId) (visible : Bool)
  /-- A load has been requested in an IFrame. -/
  | ScriptLoadedURLInIFrame (info : IFrameLoadInfo)
  /-- Requests that the constellation set the contents of the clipboard. -/
  | SetClipboardContents (contents : String)
  /-- Mark a new document as active. -/
  | ActivateDocument (p : PipelineId)
  /-- Set the document state for a pipeline. -/
  | SetDocumentState (p : PipelineId) (st : DocumentState)
  /-- Update the pipeline Url, which can change after redirections. -/
  | SetFinalUrl (p : PipelineId) (u : Url)
  /-- Check if an alert dialog box should be presented. -/
  | Alert (p : PipelineId) (message : String) (reply : IpcSender Bool)
  /-- Scroll a page in a window. -/
  | ScrollFragmentPoint (p : PipelineId) (l : LayerId) (pt : Point2D F32)
      (smooth : Bool)
  /-- Set title of current page. -/
  | SetTitle (p : PipelineId) (title : Option String)
  /-- Send a key event. -/
  | SendKeyEvent (ch : Option Char) (k : Key) (st : KeyState) (mods : KeyModifiers)
  /-- Get window information: size and position. -/
  | GetClientWindow (reply : IpcSender (Size2D Nat × Point2D Int))
  /-- Move the window to a point. -/
  | MoveTo (pt : Point2D Int)
  /-- Resize the window to size. -/
  | ResizeTo (size : Size2D Nat)
  /-- Script has handled a touch event, and either prevented or allowed
  default actions. -/
  | TouchEventProcessed (r : EventResult)
  /-- Get scroll offset. -/
  | GetScrollOffset (p : PipelineId) (l : LayerId) (reply : IpcSender (Point2D F32))
  /-- A log entry, with the pipeline id and thread name. -/
  | LogEntry (p : Option PipelineId) (threadName : Option String) (e : LogEntry)
  /-- Notifies the constellation that this pipeline has exited. -/
  | PipelineExited (p : PipelineId)
  /-- Requests that the compositor shut down. -/
  | Exit
deriving Repr

/-! Structural observations on the taxonomies, read off the source's
variant payload types. -/

/-- Declaration-order discriminant of a `LayoutMsg` variant. -/
def LayoutMsg.ctorIdx : LayoutMsg → Nat
  | .ChangeRunningAnimationsState _ _ => 0
  | .SetCursor _ => 1
  | .ViewportConstrained _ _ => 2

/-- Declaration-order discriminant of a `ScriptMsg` variant. -/
def ScriptMsg.ctorIdx : ScriptMsg → Nat
  | .ChangeRunningAnimationsState _ _ => 0
  | .CreateCanvasPaintThread _ _ => 1
  | .CreateWebGLPaintThread _ _ _ => 2
  | .DOMLoad _ => 3
  | .Focus _ => 4
  | .ForwardMouseButtonEvent _ _ _ _ => 5
  | .ForwardMouseMoveEvent _ _ => 6
  | .GetClipboardContents _ => 7
  | .HeadParsed => 8
  | .LoadComplete _ => 9
  | .LoadUrl _ _ => 10
  | .MozBrowserEvent _ _ _ => 11
  | .Navigate _ _ => 12
  | .NewFavicon _ => 13
  | .NodeStatus _ => 14
  | .RemoveIFrame _ _ => 15
  | .SetVisible _ _ => 16
  | .VisibilityChangeComplete _ _ => 17
  | .ScriptLoadedURLInIFrame _ => 18
  | .SetClipboardContents _ => 19
  | .ActivateDocument _ => 20
  | .SetDocumentState _ _ => 21
  | .SetFinalUrl _ _ => 22
  | .Alert _ _ _ => 23
  | .ScrollFragmentPoint _ _ _ _ => 24
  | .SetTitle _ _ => 25
  | .SendKeyEvent _ _ _ _ => 26
  | .GetClientWindow _ => 27
  | .MoveTo _ => 28
  | .ResizeTo _ => 29
  | .TouchEventProcessed _ => 30
  | .GetScrollOffset _ _ _ => 31
  | .LogEntry _ _ _ => 32
  | .PipelineExited _ => 33
  | .Exit => 34

/-- One representative message per `ScriptMsg` variant, indexed by the
variant's declaration-order discriminant. -/
def ScriptMsg.repOf : Nat → ScriptMsg
  | 0 => .ChangeRunningAnimationsState ⟨0⟩ .AnimationsPresent
  | 1 => .CreateCanvasPaintThread ⟨8, 6⟩ ⟨0⟩
  | 2 => .CreateWebGLPaintThread ⟨8, 6⟩ ⟨0⟩ ⟨0⟩
  | 3 => .DOMLoad ⟨0⟩
  | 4 => .Focus ⟨0⟩
  | 5 => .ForwardMouseButtonEvent ⟨0⟩ ⟨0⟩ ⟨0⟩ ⟨⟨0⟩, ⟨0⟩⟩
  | 6 => .ForwardMouseMoveEvent ⟨0⟩ ⟨⟨0⟩, ⟨0⟩⟩
  | 7 => .GetClipboardContents ⟨0⟩
  | 8 => .HeadParsed
  | 9 => .LoadComplete ⟨0⟩
  | 10 => .LoadUrl ⟨0⟩ ⟨⟨"about:blank"⟩, 0⟩
  | 11 => .MozBrowserEvent ⟨0⟩ ⟨0⟩ ⟨0⟩
  | 12 => .Navigate none .Forward
  | 13 => .NewFavicon ⟨"about:blank"⟩
  | 14 => .NodeStatus none
  | 15 => .RemoveIFrame ⟨0⟩ none
  | 16 => .SetVisible ⟨0⟩ true
  | 17 => .VisibilityChangeComplete ⟨0⟩ true
  | 18 => .ScriptLoadedURLInIFrame ⟨⟨0⟩, ⟨0⟩, ⟨1⟩, ⟨⟨"about:blank"⟩, 0⟩⟩
  | 19 => .SetClipboardContents ""
  | 20 => .ActivateDocument ⟨0⟩
  | 21 => .SetDocumentState ⟨0⟩ ⟨0⟩
  | 22 => .SetFinalUrl ⟨0⟩ ⟨"about:blank"⟩
  | 23 => .Alert ⟨0⟩ "" ⟨0⟩
  | 24 => .ScrollFragmentPoint ⟨0⟩ ⟨0⟩ ⟨⟨0⟩, ⟨0⟩⟩ false
  | 25 => .SetTitle ⟨0⟩ none
  | 26 => .SendKeyEvent none ⟨0⟩ ⟨0⟩ ⟨0⟩
  | 27 => .GetClientWindow ⟨0⟩
  | 28 => .MoveTo ⟨0, 0⟩
  | 29 => .ResizeTo ⟨0, 0⟩
  | 30 => .TouchEventProcessed .DefaultAllowed
  | 31 => .GetScrollOffset ⟨0⟩ ⟨0⟩ ⟨0⟩
  | 32 => .LogEntry none none (.Warn "")
  | 33 => .PipelineExited ⟨0⟩
  | _ => .Exit

/-- The `(PipelineId, AnimationState)` payload of a `LayoutMsg`, present
exactly on the `ChangeRunningAnimationsState` variant. -/
def LayoutMsg.animationStatePayload : LayoutMsg → Option (PipelineId × AnimationState)
  | .ChangeRunningAnimationsState p a => some (p, a)
  | _ => none

/-- The `(PipelineId, AnimationState)` payload of a `ScriptMsg`, present
exactly on the `ChangeRunningAnimationsState` variant: no other variant
of `ScriptMsg` has a field of type `AnimationState`. -/
def ScriptMsg.animationStatePayload : ScriptMsg → Option (PipelineId × AnimationState)
  | .ChangeRunningAnimationsState p a => some (p, a)
  | _ => none

/-- Whether a `ScriptMsg` is one of the two paint-actor creation
requests. -/
def ScriptMsg.isPaintCreation : ScriptMsg → Bool
  | .CreateCanvasPaintThread _ _ => true
  | .CreateWebGLPaintThread _ _ _ => true
  | _ => false

/-- The size carried by a paint-actor creation request. -/
def ScriptMsg.paintSize : ScriptMsg → Option (Size2D Int)
  | .CreateCanvasPaintThread sz _ => some sz
  | .CreateWebGLPaintThread sz _ _ => some sz
  | _ => none

/-- The GPU context attributes carried by a `ScriptMsg`: only the
`CreateWebGLPaintThread` variant has a field of type
`GLContextAttributes`. -/
def ScriptMsg.paintGLAttrs : ScriptMsg → Option GLContextAttributes
  | .CreateWebGLPaintThread _ attrs _ => some attrs
  | _ => none

/-- The reply pipe embedded in a 2D-canvas creation request; the value
delivered through it has type `IpcSender CanvasMsg`, a drawing-command
channel handle with no failure alternative. -/
def ScriptMsg.canvasReplyPipe : ScriptMsg → Option (IpcSender (IpcSender CanvasMsg))
  | .CreateCanvasPaintThread _ reply => some reply
  | _ => none

/-- The reply pipe embedded in a WebGL creation request; the value
delivered through it has type
`Except String (IpcSender CanvasMsg × GLLimits)`: either a failure
reason string or a drawing-command channel handle paired with a
capability-limits descriptor. -/
def ScriptMsg.webglReplyPipe :
    ScriptMsg → Option (IpcSender (Except String (IpcSender CanvasMsg × GLLimits)))
  | .CreateWebGLPaintThread _ _ reply => some reply
  | _ => none

/-- The ports of every reply pipe (`IpcSender` of any type) embedded in
a `ScriptMsg` payload, read off the source's field types. -/
def ScriptMsg.replyPorts : ScriptMsg → List Nat
  | .CreateCanvasPaintThread _ reply => [reply.port]
  | .CreateWebGLPaintThread _ _ reply => [reply.port]
  | .GetClipboardContents reply => [reply.port]
  | .RemoveIFrame _ (some reply) => [reply.port]
  | .Alert _ _ reply => [reply.port]
  | .GetClientWindow reply => [reply.port]
  | .GetScrollOffset _ _ reply => [reply.port]
  | _ => []

/-- Modelled from the spec: the constellation's dispatch loop is not
under `src/`; per spec section 4.3 and the exactly-once-reply property,
the handler of each request that embeds a reply pipe sends exactly one
value through that pipe, on success and failure paths alike, and sends
on no other reply pipe. The list collects one entry per send the
handler performs, naming the port sent on. -/
def supervisorReplySends : ScriptMsg → List Nat
  | .CreateCanvasPaintThread _ reply => [reply.port]
  | .CreateWebGLPaintThread _ _ reply => [reply.port]
  | .GetClipboardContents reply => [reply.port]
  | .RemoveIFrame _ (some reply) => [reply.port]
  | .Alert _ _ reply => [reply.port]
  | .GetClientWindow reply => [reply.port]
  | .GetScrollOffset _ _ reply => [reply.port]
  | _ => []

/-- Every `PipelineId` occurring anywhere in a `ScriptMsg` payload, read
off the source's field types (including ids nested in `Option` payloads
and inside `IFrameLoadInfo`). -/
def ScriptMsg.pipelineIdsIn : ScriptMsg → List PipelineId
  | .ChangeRunningAnimationsState p _ => [p]
  | .CreateCanvasPaintThread _ _ => []
  | .CreateWebGLPaintThread _ _ _ => []
  | .DOMLoad p => [p]
  | .Focus p => [p]
  | .ForwardMouseButtonEvent p _ _ _ => [p]
  | .ForwardMouseMoveEvent p _ => [p]
  | .GetClipboardContents _ => []
  | .HeadParsed => []
  | .LoadComplete p => [p]
  | .LoadUrl p _ => [p]
  | .MozBrowserEvent p _ _ => [p]
  | .Navigate (some (p, _)) _ => [p]
  | .Navigate none _ => []
  | .NewFavicon _ => []
  | .NodeStatus _ => []
  | .RemoveIFrame p _ => [p]
  | .SetVisible p _ => [p]
  | .VisibilityChangeComplete p _ => [p]
  | .ScriptLoadedURLInIFrame info => [info.containingPipelineId, info.newPipelineId]
  | .SetClipboardContents _ => []
  | .ActivateDocument p => [p]
  | .SetDocumentState p _ => [p]
  | .SetFinalUrl p _ => [p]
  | .Alert p _ _ => [p]
  | .ScrollFragmentPoint p _ _ _ => [p]
  | .SetTitle p _ => [p]
  | .SendKeyEvent _ _ _ _ => []
  | .GetClientWindow _ => []
  | .MoveTo _ => []
  | .ResizeTo _ => []
  | .TouchEventProcessed _ => []
  | .GetScrollOffset p _ _ => [p]
  | .LogEntry (some p) _ _ => [p]
  | .LogEntry none _ _ => []
  | .PipelineExited p => [p]
  | .Exit => []

/-- The `EventResult` payload of a `ScriptMsg`, present exactly on the
`TouchEventProcessed` variant. -/
def ScriptMsg.touchEventResult : ScriptMsg → Option EventResult
  | .TouchEventProcessed r => some r
  | _ => none

/-- The payload of the `LogEntry` variant of `ScriptMsg`: an optional
pipeline id, an optional thread-name string and the record itself. -/
def scriptMsgLogPayload : ScriptMsg → Option (Option PipelineId × Option String × LogEntry)
  | .LogEntry p n e => some (p, n, e)
  | _ => none

/-- The payload of the `MozBrowserEvent` variant of `ScriptMsg`. -/
def scriptMsgMozBrowserPayload : ScriptMsg → Option (PipelineId × SubpageId × MozBrowserEvent)
  | .MozBrowserEvent p s e => some (p, s, e)
  | _ => none

/-- One representative message per `LayoutMsg` variant, indexed by the
variant's declaration-order discriminant. -/
def layoutRepOf : Nat → LayoutMsg
  | 0 => .ChangeRunningAnimationsState ⟨0⟩ .AnimationsPresent
  | 1 => .SetCursor ⟨0⟩
  | _ => .ViewportConstrained ⟨0⟩ ⟨0⟩

/-- Claim C1 counterexample: `CreateCanvasPaintThread` is a paint-actor
creation request whose payload carries no GPU context attributes, so the
claim that both creation requests carry a descriptor of size *and* GPU
context attributes fails on the 2D-canvas request. -/
theorem C1_counterexample :
    ScriptMsg.isPaintCreation (ScriptMsg.CreateCanvasPaintThread ⟨8, 6⟩ ⟨0⟩) = true ∧
    ScriptMsg.paintGLAttrs (ScriptMsg.CreateCanvasPaintThread ⟨8, 6⟩ ⟨0⟩) = none := by
  exact ⟨rfl, rfl⟩

/-- Claim C1 (amended): `CreateCanvasPaintThread` carries a size and an
embedded reply pipe whose delivered value is a drawing-command channel
handle (with no failure alternative), and no GPU context attributes;
`CreateWebGLPaintThread` carries a size, GPU context attributes and an
embedded reply pipe whose delivered value is either a failure reason
string or a drawing-command channel handle paired with a
capability-limits descriptor; in both cases the embedded pipe is the
only reply pipe of the request, so the requester receives only a channel
(plus, for WebGL, the limits descriptor), never a direct GPU handle. -/
theorem C1_paint_creation_payloads :
    (∀ (sz : Size2D Int) (ch : IpcSender (IpcSender CanvasMsg)),
      ScriptMsg.paintSize (.CreateCanvasPaintThread sz ch) = some sz ∧
      ScriptMsg.canvasReplyPipe (.CreateCanvasPaintThread sz ch) = some ch ∧
      ScriptMsg.paintGLAttrs (.CreateCanvasPaintThread sz ch) = none ∧
      ScriptMsg.replyPorts (.CreateCanvasPaintThread sz ch) = [ch.port]) ∧
    (∀ (sz : Size2D Int) (a : GLContextAttributes)
       (ch : IpcSender (Except String (IpcSender CanvasMsg × GLLimits))),
      ScriptMsg.paintSize (.CreateWebGLPaintThread sz a ch) = some sz ∧
      ScriptMsg.paintGLAttrs (.CreateWebGLPaintThread sz a ch) = some a ∧
      ScriptMsg.webglReplyPipe (.CreateWebGLPaintThread sz a ch) = some ch ∧
      ScriptMsg.replyPorts (.CreateWebGLPaintThread sz a ch) = [ch.port]) ∧
    (∀ r : Except String (IpcSender CanvasMsg × GLLimits),
      (∃ e, r = .error e) ∨ ∃ c lim, r = .ok (c, lim)) := by
  refine ⟨fun sz ch => ⟨rfl, rfl, rfl, rfl⟩,
          fun sz a ch => ⟨rfl, rfl, rfl, rfl⟩, fun r => ?_⟩
  cases r with
  | error e => exact Or.inl ⟨e, rfl⟩
  | ok p => exact Or.inr ⟨p.1, p.2, rfl⟩

/-- Claim C2 counterexample: the Script-to-Supervisor taxonomy also has
a `ChangeRunningAnimationsState` variant carrying a `PipelineId` and an
`AnimationState`, so the animation-state update message is not
exclusively of Layout origin. -/
theorem C2_counterexample :
    ScriptMsg.animationStatePayload
      (ScriptMsg.ChangeRunningAnimationsState ⟨7⟩ .AnimationsPresent) =
      some (⟨7⟩, .AnimationsPresent) := rfl

/-- Claim C2 (amended): both `LayoutMsg` and `ScriptMsg` have a
`ChangeRunningAnimationsState` variant carrying a `PipelineId` and an
`AnimationState`, and in each taxonomy that variant is the only one
whose payload contains an `AnimationState`: the animation state of a
pipeline is set by Layout and also by Script, and by no other message
shape. -/
theorem C2_animation_state_origins :
    (∀ p a, LayoutMsg.animationStatePayload (.ChangeRunningAnimationsState p a) =
      some (p, a)) ∧
    (∀ l : LayoutMsg,
      (LayoutMsg.animationStatePayload l).isSome = true ↔ LayoutMsg.ctorIdx l = 0) ∧
    (∀ p a, ScriptMsg.animationStatePayload (.ChangeRunningAnimationsState p a) =
      some (p, a)) ∧
    (∀ m : ScriptMsg,
      (ScriptMsg.animationStatePayload m).isSome = true ↔ ScriptMsg.ctorIdx m = 0) := by
  refine ⟨fun p a => rfl, fun l => ?_, fun p a => rfl, fun m => ?_⟩
  · cases l <;> simp [LayoutMsg.animationStatePayload, LayoutMsg.ctorIdx]
  · cases m <;> simp [ScriptMsg.animationStatePayload, ScriptMsg.ctorIdx]

/-- Claim C3 counterexample: `SetClipboardContents`, `MoveTo`,
`ResizeTo` and `ScrollFragmentPoint` carry no reply pipe at all, so the
claim that every listed chrome/UI variant carries an embedded reply pipe
fails on each of them. -/
theorem C3_counterexample :
    ScriptMsg.replyPorts (ScriptMsg.SetClipboardContents "x") = [] ∧
    ScriptMsg.replyPorts (ScriptMsg.MoveTo ⟨10, 20⟩) = [] ∧
    ScriptMsg.replyPorts (ScriptMsg.ResizeTo ⟨800, 600⟩) = [] ∧
    ScriptMsg.replyPorts (ScriptMsg.ScrollFragmentPoint ⟨0⟩ ⟨0⟩ ⟨⟨0⟩, ⟨0⟩⟩ false) = [] := by
  exact ⟨rfl, rfl, rfl, rfl⟩

/-- Claim C3 (amended): among the listed chrome/UI variants exactly the
read-style requests `GetClipboardContents`, `Alert`, `GetClientWindow`
and `GetScrollOffset` carry an embedded reply pipe, while
`SetClipboardContents`, `MoveTo`, `ResizeTo` and `ScrollFragmentPoint`
carry none; and the Supervisor handler (modelled from the spec) sends
exactly one value through each reply pipe a message embeds and through
no other pipe, on every path. -/
theorem C3_reply_pipes :
    (∀ s, ScriptMsg.replyPorts (.GetClipboardContents s) = [s.port]) ∧
    (∀ p msg r, ScriptMsg.replyPorts (.Alert p msg r) = [r.port]) ∧
    (∀ r, ScriptMsg.replyPorts (.GetClientWindow r) = [r.port]) ∧
    (∀ p l r, ScriptMsg.replyPorts (.GetScrollOffset p l r) = [r.port]) ∧
    (∀ s, ScriptMsg.replyPorts (.SetClipboardContents s) = []) ∧
    (∀ pt, ScriptMsg.replyPorts (.MoveTo pt) = []) ∧
    (∀ sz, ScriptMsg.replyPorts (.ResizeTo sz) = []) ∧
    (∀ p l pt b, ScriptMsg.replyPorts (.ScrollFragmentPoint p l pt b) = []) ∧
    (∀ m : ScriptMsg, supervisorReplySends m = ScriptMsg.replyPorts m) := by
  refine ⟨fun s => rfl, fun p msg r => rfl, fun r => rfl, fun p l r => rfl,
          fun s => rfl, fun pt => rfl, fun sz => rfl, fun p l pt b => rfl,
          fun m => ?_⟩
  cases m <;> rfl

/-- Claim C5: `LayoutMsg` has exactly 3 variants: an animation-state
change carrying a `PipelineId` and an `AnimationState`, a cursor-change
request carrying a `Cursor`, and a viewport-constrained notification
carrying a `PipelineId` and the `ViewportConstraints`. -/
theorem C5_layout_msg_taxonomy :
    (∀ l : LayoutMsg,
      (∃ p a, l = .ChangeRunningAnimationsState p a) ∨
      (∃ c, l = .SetCursor c) ∨
      (∃ p v, l = .ViewportConstrained p v)) ∧
    (∀ l : LayoutMsg, LayoutMsg.ctorIdx l < 3) ∧
    (List.range 3).map (fun i => LayoutMsg.ctorIdx (layoutRepOf i)) = List.range 3 := by
  refine ⟨fun l => ?_, fun l => ?_, rfl⟩
  · cases l with
    | ChangeRunningAnimationsState p a => exact Or.inl ⟨p, a, rfl⟩
    | SetCursor c => exact Or.inr (Or.inl ⟨c, rfl⟩)
    | ViewportConstrained p v => exact Or.inr (Or.inr ⟨p, v, rfl⟩)
  · cases l <;> simp [LayoutMsg.ctorIdx]

/-- Claim C6: a `LogEntry` record has exactly the kinds
`Panic(reason, trace)`, `Error(reason)` and `Warn(reason)`, and the
`LogEntry` variant of `ScriptMsg` tags the record with an optional
`PipelineId` and an optional thread-name string, so a record carrying no
pipeline id at all is a constructible message. -/
theorem C6_log_entry_taxonomy :
    (∀ e : LogEntry,
      (∃ r t, e = .Panic r t) ∨ (∃ r, e = .Error r) ∨ (∃ r, e = .Warn r)) ∧
    LogEntry.Panic "" "" ≠ LogEntry.Error "" ∧
    LogEntry.Error "" ≠ LogEntry.Warn "" ∧
    LogEntry.Panic "" "" ≠ LogEntry.Warn "" ∧
    (∀ p n e, scriptMsgLogPayload (.LogEntry p n e) = some (p, n, e)) ∧
    scriptMsgLogPayload (.LogEntry none none (.Warn "w")) =
      some (none, none, .Warn "w") := by
  refine ⟨fun e => ?_, by decide, by decide, by decide, fun p n e => rfl, rfl⟩
  cases e with
  | Panic r t => exact Or.inl ⟨r, t, rfl⟩
  | Error r => exact Or.inr (Or.inl ⟨r, rfl⟩)
  | Warn r => exact Or.inr (Or.inr ⟨r, rfl⟩)

/-- Claim C7: `EventResult` has exactly the two values `DefaultAllowed`
and `DefaultPrevented`, and it is the payload of — and of no variant
other than — `TouchEventProcessed`, the message by which Script reports
whether content consumed a forwarded input event. -/
theorem C7_event_result :
    (∀ e : EventResult, e = .DefaultAllowed ∨ e = .DefaultPrevented) ∧
    EventResult.DefaultAllowed ≠ EventResult.DefaultPrevented ∧
    (∀ r, ScriptMsg.touchEventResult (.TouchEventProcessed r) = some r) ∧
    (∀ m : ScriptMsg,
      (ScriptMsg.touchEventResult m).isSome = true ↔ ScriptMsg.ctorIdx m = 30) := by
  refine ⟨fun e => ?_, by decide, fun r => rfl, fun m => ?_⟩
  · cases e with
    | DefaultAllowed => exact Or.inl rfl
    | DefaultPrevented => exact Or.inr rfl
  · cases m <;> simp [ScriptMsg.touchEventResult, ScriptMsg.ctorIdx]

/-- Claim C8: `SendKeyEvent` and `TouchEventProcessed` payloads contain
no `PipelineId` at all, while `ForwardMouseButtonEvent` and
`ForwardMouseMoveEvent` payloads begin with exactly one. -/
theorem C8_input_event_pipeline_ids :
    (∀ c k s mo, ScriptMsg.pipelineIdsIn (.SendKeyEvent c k s mo) = []) ∧
    (∀ r, ScriptMsg.pipelineIdsIn (.TouchEventProcessed r) = []) ∧
    (∀ p t b pt, ScriptMsg.pipelineIdsIn (.ForwardMouseButtonEvent p t b pt) = [p]) ∧
    (∀ p pt, ScriptMsg.pipelineIdsIn (.ForwardMouseMoveEvent p pt) = [p]) :=
  ⟨fun _ _ _ _ => rfl, fun _ => rfl, fun _ _ _ _ => rfl, fun _ _ => rfl⟩

/-- Claim C9: `ScriptMsg` contains a `MozBrowserEvent` variant — and
only that variant — carrying a `PipelineId`, a `SubpageId` and a
`MozBrowserEvent` payload, and the taxonomy has exactly 35 variants:
every message's discriminant is below 35 and all 35 discriminants are
realized. -/
theorem C9_script_msg_taxonomy :
    (∀ p s e, scriptMsgMozBrowserPayload (.MozBrowserEvent p s e) = some (p, s, e)) ∧
    (∀ m : ScriptMsg,
      (scriptMsgMozBrowserPayload m).isSome = true ↔ ScriptMsg.ctorIdx m = 11) ∧
    (∀ m : ScriptMsg, ScriptMsg.ctorIdx m < 35) ∧
    (List.range 35).map (fun i => ScriptMsg.ctorIdx (ScriptMsg.repOf i)) =
      List.range 35 := by
  refine ⟨fun p s e => rfl, fun m => ?_, fun m => ?_, by decide⟩
  · cases m <;> simp [scriptMsgMozBrowserPayload, ScriptMsg.ctorIdx]
  · cases m <;> simp [ScriptMsg.ctorIdx]

/-- Claim C10: `HeadParsed` carries no payload at all — a message with
its discriminant is the message `HeadParsed` itself, and in particular
no `PipelineId` occurs in it. -/
theorem C10_head_parsed_no_payload :
    (∀ m : ScriptMsg, ScriptMsg.ctorIdx m = 8 ↔ m = .HeadParsed) ∧
    ScriptMsg.pipelineIdsIn .HeadParsed = [] := by
  refine ⟨fun m => ?_, rfl⟩
  cases m <;> simp [ScriptMsg.ctorIdx]

/-! Wire format.  The serde derives on the taxonomy live outside `src/`
(generated code); per spec section 6 the wire format is a tagged union:
a discriminant tag identifying the variant plus the variant's
fixed-shape payload.  `Wire` is that tagged representation, and each
payload type gets an encoder and a decoder. -/

/-- Modelled from the spec: a serialized protocol value — a scalar or a
tagged node holding the fixed-shape payload of one variant. -/
inductive Wire where
  | nat (n : Nat)
  | int (i : Int)
  | str (s : String)
  | chr (c : Char)
  | node (tag : Nat) (children : List Wire)

/-- Encode a `PipelineId`. -/
def encPipelineId (p : PipelineId) : Wire := .nat p.index

/-- Decode a `PipelineId`. -/
def decPipelineId : Wire → Option PipelineId
  | .nat n => some ⟨n⟩
  | _ => none

@[simp] theorem decPipelineId_enc (p : PipelineId) :
    decPipelineId (encPipelineId p) = some p := rfl

/-- Encode a `SubpageId`. -/
def encSubpageId (s : SubpageId) : Wire := .nat s.index

/-- Decode a `SubpageId`. -/
def decSubpageId : Wire → Option SubpageId
  | .nat n => some ⟨n⟩
  | _ => none

@[simp] theorem decSubpageId_enc (s : SubpageId) :
    decSubpageId (encSubpageId s) = some s := rfl

/-- Encode a `LayerId`. -/
def encLayerId (l : LayerId) : Wire := .nat l.index

/-- Decode a `LayerId`. -/
def decLayerId : Wire → Option LayerId
  | .nat n => some ⟨n⟩
  | _ => none

@[simp] theorem decLayerId_enc (l : LayerId) :
    decLayerId (encLayerId l) = some l := rfl

/-- Encode an `AnimationState`. -/
def encAnimationState : AnimationState → Wire
  | .AnimationsPresent => .nat 0
  | .NoAnimationsPresent => .nat 1

/-- Decode an `AnimationState`. -/
def decAnimationState : Wire → Option AnimationState
  | .nat 0 => some .AnimationsPresent
  | .nat 1 => some .NoAnimationsPresent
  | _ => none

@[simp] theorem decAnimationState_enc (a : AnimationState) :
    decAnimationState (encAnimationState a) = some a := by
  cases a <;> rfl

/-- Encode a `DocumentState`. -/
def encDocumentState (d : DocumentState) : Wire := .nat d.code

/-- Decode a `DocumentState`. -/
def decDocumentState : Wire → Option DocumentState
  | .nat n => some ⟨n⟩
  | _ => none

@[simp] theorem decDocumentState_enc (d : DocumentState) :
    decDocumentState (encDocumentState d) = some d := rfl

/-- Encode a `MouseButton`. -/
def encMouseButton (b : MouseButton) : Wire := .nat b.code

/-- Decode a `MouseButton`. -/
def decMouseButton : Wire → Option MouseButton
  | .nat n => some ⟨n⟩
  | _ => none

@[simp] theorem decMouseButton_enc (b : MouseButton) :
    decMouseButton (encMouseButton b) = some b := rfl

/-- Encode a `MouseEventType`. -/
def encMouseEventType (t : MouseEventType) : Wire := .nat t.code

/-- Decode a `MouseEventType`. -/
def decMouseEventType : Wire → Option MouseEventType
  | .nat n => some ⟨n⟩
  | _ => none

@[simp] theorem decMouseEventType_enc (t : MouseEventType) :
    decMouseEventType (encMouseEventType t) = some t := rfl

/-- Encode a `MozBrowserEvent`. -/
def encMozBrowserEvent (e : MozBrowserEvent) : Wire := .nat e.code

/-- Decode a `MozBrowserEvent`. -/
def decMozBrowserEvent : Wire → Option MozBrowserEvent
  | .nat n => some ⟨n⟩
  | _ => none

@[simp] theorem decMozBrowserEvent_enc (e : MozBrowserEvent) :
    decMozBrowserEvent (encMozBrowserEvent e) = some e := rfl

/-- Encode a `Key`. -/
def encKey (k : Key) : Wire := .nat k.code

/-- Decode a `Key`. -/
def decKey : Wire → Option Key
  | .nat n => some ⟨n⟩
  | _ => none

@[simp] theorem decKey_enc (k : Key) : decKey (encKey k) = some k := rfl

/-- Encode a `KeyState`. -/
def encKeyState (k : KeyState) : Wire := .nat k.code

/-- Decode a `KeyState`. -/
def decKeyState : Wire → Option KeyState
  | .nat n => some ⟨n⟩
  | _ => none

@[simp] theorem decKeyState_enc (k : KeyState) :
    decKeyState (encKeyState k) = some k := rfl

/-- Encode a `KeyModifiers`. -/
def encKeyModifiers (k : KeyModifiers) : Wire := .nat k.bits

/-- Decode a `KeyModifiers`. -/
def decKeyModifiers : Wire → Option KeyModifiers
  | .nat n => some ⟨n⟩
  | _ => none

@[simp] theorem decKeyModifiers_enc (k : KeyModifiers) :
    decKeyModifiers (encKeyModifiers k) = some k := rfl

/-- Encode a `Url`. -/
def encUrl (u : Url) : Wire := .str u.spec

/-- Decode a `Url`. -/
def decUrl : Wire → Option Url
  | .str s => some ⟨s⟩
  | _ => none

@[simp] theorem decUrl_enc (u : Url) : decUrl (encUrl u) = some u := rfl

/-- Encode a `LoadData`. -/
def encLoadData (d : LoadData) : Wire := .node 2 [.str d.url.spec, .nat d.metaCode]

/-- Decode a `LoadData`. -/
def decLoadData : Wire → Option LoadData
  | .node 2 [.str s, .nat n] => some ⟨⟨s⟩, n⟩
  | _ => none

@[simp] theorem decLoadData_enc (d : LoadData) :
    decLoadData (encLoadData d) = some d := rfl

/-- Encode a `NavigationDirection`. -/
def encNavigationDirection : NavigationDirection → Wire
  | .Forward => .nat 0
  | .Back => .nat 1

/-- Decode a `NavigationDirection`. -/
def decNavigationDirection : Wire → Option NavigationDirection
  | .nat 0 => some .Forward
  | .nat 1 => some .Back
  | _ => none

@[simp] theorem decNavigationDirection_enc (d : NavigationDirection) :
    decNavigationDirection (encNavigationDirection d) = some d := by
  cases d <;> rfl

/-- Encode an `IFrameLoadInfo`. -/
def encIFrameLoadInfo (i : IFrameLoadInfo) : Wire :=
  .node 4 [.nat i.containingPipelineId.index, .nat i.newSubpageId.index,
           .nat i.newPipelineId.index, encLoadData i.loadData]

/-- Decode an `IFrameLoadInfo`. -/
def decIFrameLoadInfo : Wire → Option IFrameLoadInfo
  | .node 4 [.nat a, .nat b, .nat c, w] =>
      match decLoadData w with
      | some d => some ⟨⟨a⟩, ⟨b⟩, ⟨c⟩, d⟩
      | none => none
  | _ => none

@[simp] theorem decIFrameLoadInfo_enc (i : IFrameLoadInfo) :
    decIFrameLoadInfo (encIFrameLoadInfo i) = some i := rfl

/-- Encode a `Cursor`. -/
def encCursor (c : Cursor) : Wire := .nat c.code

/-- Decode a `Cursor`. -/
def decCursor : Wire → Option Cursor
  | .nat n => some ⟨n⟩
  | _ => none

@[simp] theorem decCursor_enc (c : Cursor) : decCursor (encCursor c) = some c := rfl

/-- Encode a `ViewportConstraints`. -/
def encViewportConstraints (v : ViewportConstraints) : Wire := .nat v.code

/-- Decode a `ViewportConstraints`. -/
def decViewportConstraints : Wire → Option ViewportConstraints
  | .nat n => some ⟨n⟩
  | _ => none

@[simp] theorem decViewportConstraints_enc (v : ViewportConstraints) :
    decViewportConstraints (encViewportConstraints v) = some v := rfl

/-- Encode a `GLContextAttributes`. -/
def encGLContextAttributes (a : GLContextAttributes) : Wire := .nat a.bits

/-- Decode a `GLContextAttributes`. -/
def decGLContextAttributes : Wire → Option GLContextAttributes
  | .nat n => some ⟨n⟩
  | _ => none

@[simp] theorem decGLContextAttributes_enc (a : GLContextAttributes) :
    decGLContextAttributes (encGLContextAttributes a) = some a := rfl

/-- Encode an `IpcSender` endpoint of any payload type. -/
def encIpc (s : IpcSender α) : Wire := .nat s.port

/-- Decode an `IpcSender` endpoint. -/
def decIpc : Wire → Option (IpcSender α)
  | .nat n => some ⟨n⟩
  | _ => none

@[simp] theorem decIpc_enc (s : IpcSender α) : decIpc (encIpc s) = some s := rfl

/-- Encode a `Bool`. -/
def encBool : Bool → Wire
  | false => .nat 0
  | true => .nat 1

/-- Decode a `Bool`. -/
def decBool : Wire → Option Bool
  | .nat 0 => some false
  | .nat 1 => some true
  | _ => none

@[simp] theorem decBool_enc (b : Bool) : decBool (encBool b) = some b := by
  cases b <;> rfl

/-- Encode an `EventResult`. -/
def encEventResult : EventResult → Wire
  | .DefaultAllowed => .nat 0
  | .DefaultPrevented => .nat 1

/-- Decode an `EventResult`. -/
def decEventResult : Wire → Option EventResult
  | .nat 0 => some .DefaultAllowed
  | .nat 1 => some .DefaultPrevented
  | _ => none

@[simp] theorem decEventResult_enc (e : EventResult) :
    decEventResult (encEventResult e) = some e := by
  cases e <;> rfl

/-- Encode a `LogEntry`. -/
def encLogEntry : LogEntry → Wire
  | .Panic r t => .node 0 [.str r, .str t]
  | .Error r => .node 1 [.str r]
  | .Warn r => .node 2 [.str r]

/-- Decode a `LogEntry`. -/
def decLogEntry : Wire → Option LogEntry
  | .node 0 [.str r, .str t] => some (.Panic r t)
  | .node 1 [.str r] => some (.Error r)
  | .node 2 [.str r] => some (.Warn r)
  | _ => none

@[simp] theorem decLogEntry_enc (e : LogEntry) :
    decLogEntry (encLogEntry e) = some e := by
  cases e <;> rfl

/-- Encode a `Point2D F32` by coordinate bit patterns. -/
def encPointF32 (pt : Point2D F32) : Wire := .node 2 [.nat pt.x.bits, .nat pt.y.bits]

/-- Decode a `Point2D F32`. -/
def decPointF32 : Wire → Option (Point2D F32)
  | .node 2 [.nat a, .nat b] => some ⟨⟨a⟩, ⟨b⟩⟩
  | _ => none

@[simp] theorem decPointF32_enc (pt : Point2D F32) :
    decPointF32 (encPointF32 pt) = some pt := rfl

/-- Encode a `Point2D Int`. -/
def encPointI32 (pt : Point2D Int) : Wire := .node 2 [.int pt.x, .int pt.y]

/-- Decode a `Point2D Int`. -/
def decPointI32 : Wire → Option (Point2D Int)
  | .node 2 [.int a, .int b] => some ⟨a, b⟩
  | _ => none

@[simp] theorem decPointI32_enc (pt : Point2D Int) :
    decPointI32 (encPointI32 pt) = some pt := rfl

/-- Encode a `Size2D Int`. -/
def encSizeI32 (sz : Size2D Int) : Wire := .node 2 [.int sz.width, .int sz.height]

/-- Decode a `Size2D Int`. -/
def decSizeI32 : Wire → Option (Size2D Int)
  | .node 2 [.int a, .int b] => some ⟨a, b⟩
  | _ => none

@[simp] theorem decSizeI32_enc (sz : Size2D Int) :
    decSizeI32 (encSizeI32 sz) = some sz := rfl

/-- Encode a `Size2D Nat`. -/
def encSizeU32 (sz : Size2D Nat) : Wire := .node 2 [.nat sz.width, .nat sz.height]

/-- Decode a `Size2D Nat`. -/
def decSizeU32 : Wire → Option (Size2D Nat)
  | .node 2 [.nat a, .nat b] => some ⟨a, b⟩
  | _ => none

@[simp] theorem decSizeU32_enc (sz : Size2D Nat) :
    decSizeU32 (encSizeU32 sz) = some sz := rfl

/-- Encode an optional `String`. -/
def encOptStr : Option String → Wire
  | none => .node 0 []
  | some s => .node 1 [.str s]

/-- Decode an optional `String`. -/
def decOptStr : Wire → Option (Option String)
  | .node 0 [] => some none
  | .node 1 [.str s] => some (some s)
  | _ => none

@[simp] theorem decOptStr_enc (o : Option String) :
    decOptStr (encOptStr o) = some o := by
  cases o <;> rfl

/-- Encode an optional `Char`. -/
def encOptChar : Option Char → Wire
  | none => .node 0 []
  | some c => .node 1 [.chr c]

/-- Decode an optional `Char`. -/
def decOptChar : Wire → Option (Option Char)
  | .node 0 [] => some none
  | .node 1 [.chr c] => some (some c)
  | _ => none

@[simp] theorem decOptChar_enc (o : Option Char) :
    decOptChar (encOptChar o) = some o := by
  cases o <;> rfl

/-- Encode an optional `PipelineId`. -/
def encOptPid : Option PipelineId → Wire
  | none => .node 0 []
  | some p => .node 1 [.nat p.index]

/-- Decode an optional `PipelineId`. -/
def decOptPid : Wire → Option (Option PipelineId)
  | .node 0 [] => some none
  | .node 1 [.nat n] => some (some ⟨n⟩)
  | _ => none

@[simp] theorem decOptPid_enc (o : Option PipelineId) :
    decOptPid (encOptPid o) = some o := by
  cases o <;> rfl

/-- Encode an optional `IpcSender Unit` teardown-acknowledgement pipe. -/
def encOptIpcUnit : Option (IpcSender Unit) → Wire
  | none => .node 0 []
  | some s => .node 1 [.nat s.port]

/-- Decode an optional `IpcSender Unit`. -/
def decOptIpcUnit : Wire → Option (Option (IpcSender Unit))
  | .node 0 [] => some none
  | .node 1 [.nat n] => some (some ⟨n⟩)
  | _ => none

@[simp] theorem decOptIpcUnit_enc (o : Option (IpcSender Unit)) :
    decOptIpcUnit (encOptIpcUnit o) = some o := by
  cases o <;> rfl

/-- Encode an optional navigation target `(PipelineId, SubpageId)`. -/
def encNavTarget : Option (PipelineId × SubpageId) → Wire
  | none => .node 0 []
  | some (p, s) => .node 1 [.nat p.index, .nat s.index]

/-- Decode an optional navigation target. -/
def decNavTarget : Wire → Option (Option (PipelineId × SubpageId))
  | .node 0 [] => some none
  | .node 1 [.nat a, .nat b] => some (some (⟨a⟩, ⟨b⟩))
  | _ => none

@[simp] theorem decNavTarget_enc (o : Option (PipelineId × SubpageId)) :
    decNavTarget (encNavTarget o) = some o := by
  cases o <;> rfl

/-- Modelled from the spec: serialize a `LayoutMsg` as its discriminant
tag plus its fixed-shape payload. -/
def serializeLayoutMsg : LayoutMsg → Wire
  | .ChangeRunningAnimationsState p a => .node 0 [encPipelineId p, encAnimationState a]
  | .SetCursor c => .node 1 [encCursor c]
  | .ViewportConstrained p v => .node 2 [encPipelineId p, encViewportConstraints v]

/-- Modelled from the spec: deserialize a `LayoutMsg`. -/
def deserializeLayoutMsg : Wire → Option LayoutMsg
  | .node 0 [w1, w2] =>
      match decPipelineId w1, decAnimationState w2 with
      | some p, some a => some (.ChangeRunningAnimationsState p a)
      | _, _ => none
  | .node 1 [w1] =>
      match decCursor w1 with
      | some c => some (.SetCursor c)
      | none => none
  | .node 2 [w1, w2] =>
      match decPipelineId w1, decViewportConstraints w2 with
      | some p, some v => some (.ViewportConstrained p v)
      | _, _ => none
  | _ => none

/-- Modelled from the spec: serialize a `ScriptMsg` as its discriminant
tag plus its fixed-shape payload. -/
def serializeScriptMsg : ScriptMsg → Wire
  | .ChangeRunningAnimationsState p a => .node 0 [encPipelineId p, encAnimationState a]
  | .CreateCanvasPaintThread sz r => .node 1 [encSizeI32 sz, encIpc r]
  | .CreateWebGLPaintThread sz a r =>
      .node 2 [encSizeI32 sz, encGLContextAttributes a, encIpc r]
  | .DOMLoad p => .node 3 [encPipelineId p]
  | .Focus p => .node 4 [encPipelineId p]
  | .ForwardMouseButtonEvent p t b pt =>
      .node 5 [encPipelineId p, encMouseEventType t, encMouseButton b, encPointF32 pt]
  | .ForwardMouseMoveEvent p pt => .node 6 [encPipelineId p, encPointF32 pt]
  | .GetClipboardContents r => .node 7 [encIpc r]
  | .HeadParsed => .node 8 []
  | .LoadComplete p => .node 9 [encPipelineId p]
  | .LoadUrl p d => .node 10 [encPipelineId p, encLoadData d]
  | .MozBrowserEvent p s e =>
      .node 11 [encPipelineId p, encSubpageId s, encMozBrowserEvent e]
  | .Navigate t d => .node 12 [encNavTarget t, encNavigationDirection d]
  | .NewFavicon u => .node 13 [encUrl u]
  | .NodeStatus o => .node 14 [encOptStr o]
  | .RemoveIFrame p o => .node 15 [encPipelineId p, encOptIpcUnit o]
  | .SetVisible p b => .node 16 [encPipelineId p, encBool b]
  | .VisibilityChangeComplete p b => .node 17 [encPipelineId p, encBool b]
  | .ScriptLoadedURLInIFrame i => .node 18 [encIFrameLoadInfo i]
  | .SetClipboardContents s => .node 19 [.str s]
  | .ActivateDocument p => .node 20 [encPipelineId p]
  | .SetDocumentState p d => .node 21 [encPipelineId p, encDocumentState d]
  | .SetFinalUrl p u => .node 22 [encPipelineId p, encUrl u]
  | .Alert p s r => .node 23 [encPipelineId p, .str s, encIpc r]
  | .ScrollFragmentPoint p l pt b =>
      .node 24 [encPipelineId p, encLayerId l, encPointF32 pt, encBool b]
  | .SetTitle p o => .node 25 [encPipelineId p, encOptStr o]
  | .SendKeyEvent c k st m =>
      .node 26 [encOptChar c, encKey k, encKeyState st, encKeyModifiers m]
  | .GetClientWindow r => .node 27 [encIpc r]
  | .MoveTo pt => .node 28 [encPointI32 pt]
  | .ResizeTo sz => .node 29 [encSizeU32 sz]
  | .TouchEventProcessed e => .node 30 [encEventResult e]
  | .GetScrollOffset p l r => .node 31 [encPipelineId p, encLayerId l, encIpc r]
  | .LogEntry o n e => .node 32 [encOptPid o, encOptStr n, encLogEntry e]
  | .PipelineExited p => .node 33 [encPipelineId p]
  | .Exit => .node 34 []

/-- Modelled from the spec: deserialize a `ScriptMsg`. -/
def deserializeScriptMsg : Wire → Option ScriptMsg
  | .node 0 [w1, w2] =>
      match decPipelineId w1, decAnimationState w2 with
      | some p, some a => some (.ChangeRunningAnimationsState p a)
      | _, _ => none
  | .node 1 [w1, w2] =>
      match decSizeI32 w1, decIpc w2 with
      | some sz, some r => some (.CreateCanvasPaintThread sz r)
      | _, _ => none
  | .node 2 [w1, w2, w3] =>
      match decSizeI32 w1, decGLContextAttributes w2, decIpc w3 with
      | some sz, some a, some r => some (.CreateWebGLPaintThread sz a r)
      | _, _, _ => none
  | .node 3 [w1] =>
      match decPipelineId w1 with
      | some p => some (.DOMLoad p)
      | none => none
  | .node 4 [w1] =>
      match decPipelineId w1 with
      | some p => some (.Focus p)
      | none => none
  | .node 5 [w1, w2, w3, w4] =>
      match decPipelineId w1, decMouseEventType w2, decMouseButton w3, decPointF32 w4 with
      | some p, some t, some b, some pt => some (.ForwardMouseButtonEvent p t b pt)
      | _, _, _, _ => none
  | .node 6 [w1, w2] =>
      match decPipelineId w1, decPointF32 w2 with
      | some p, some pt => some (.ForwardMouseMoveEvent p pt)
      | _, _ => none
  | .node 7 [w1] =>
      match decIpc w1 with
      | some r => some (.GetClipboardContents r)
      | none => none
  | .node 8 [] => some .HeadParsed
  | .node 9 [w1] =>
      match decPipelineId w1 with
      | some p => some (.LoadComplete p)
      | none => none
  | .node 10 [w1, w2] =>
      match decPipelineId w1, decLoadData w2 with
      | some p, some d => some (.LoadUrl p d)
      | _, _ => none
  | .node 11 [w1, w2, w3] =>
      match decPipelineId w1, decSubpageId w2, decMozBrowserEvent w3 with
      | some p, some s, some e => some (.MozBrowserEvent p s e)
      | _, _, _ => none
  | .node 12 [w1, w2] =>
      match decNavTarget w1, decNavigationDirection w2 with
      | some t, some d => some (.Navigate t d)
      | _, _ => none
  | .node 13 [w1] =>
      match decUrl w1 with
      | some u => some (.NewFavicon u)
      | none => none
  | .node 14 [w1] =>
      match decOptStr w1 with
      | some o => some (.NodeStatus o)
      | none => none
  | .node 15 [w1, w2] =>
      match decPipelineId w1, decOptIpcUnit w2 with
      | some p, some o => some (.RemoveIFrame p o)
      | _, _ => none
  | .node 16 [w1, w2] =>
      match decPipelineId w1, decBool w2 with
      | some p, some b => some (.SetVisible p b)
      | _, _ => none
  | .node 17 [w1, w2] =>
      match decPipelineId w1, decBool w2 with
      | some p, some b => some (.VisibilityChangeComplete p b)
      | _, _ => none
  | .node 18 [w1] =>
      match decIFrameLoadInfo w1 with
      | some i => some (.ScriptLoadedURLInIFrame i)
      | none => none
  | .node 19 [.str s] => some (.SetClipboardContents s)
  | .node 20 [w1] =>
      match decPipelineId w1 with
      | some p => some (.ActivateDocument p)
      | none => none
  | .node 21 [w1, w2] =>
      match decPipelineId w1, decDocumentState w2 with
      | some p, some d => some (.SetDocumentState p d)
      | _, _ => none
  | .node 22 [w1, w2] =>
      match decPipelineId w1, decUrl w2 with
      | some p, some u => some (.SetFinalUrl p u)
      | _, _ => none
  | .node 23 [w1, .str s, w3] =>
      match decPipelineId w1, decIpc w3 with
      | some p, some r => some (.Alert p s r)
      | _, _ => none
  | .node 24 [w1, w2, w3, w4] =>
      match decPipelineId w1, decLayerId w2, decPointF32 w3, decBool w4 with
      | some p, some l, some pt, some b => some (.ScrollFragmentPoint p l pt b)
      | _, _, _, _ => none
  | .node 25 [w1, w2] =>
      match decPipelineId w1, decOptStr w2 with
      | some p, some o => some (.SetTitle p o)
      | _, _ => none
  | .node 26 [w1, w2, w3, w4] =>
      match decOptChar w1, decKey w2, decKeyState w3, decKeyModifiers w4 with
      | some c, some k, some st, some m => some (.SendKeyEvent c k st m)
      | _, _, _, _ => none
  | .node 27 [w1] =>
      match decIpc w1 with
      | some r => some (.GetClientWindow r)
      | none => none
  | .node 28 [w1] =>
      match decPointI32 w1 with
      | some pt => some (.MoveTo pt)
      | none => none
  | .node 29 [w1] =>
      match decSizeU32 w1 with
      | some sz => some (.ResizeTo sz)
      | none => none
  | .node 30 [w1] =>
      match decEventResult w1 with
      | some e => some (.TouchEventProcessed e)
      | none => none
  | .node 31 [w1, w2, w3] =>
      match decPipelineId w1, decLayerId w2, decIpc w3 with
      | some p, some l, some r => some (.GetScrollOffset p l r)
      | _, _, _ => none
  | .node 32 [w1, w2, w3] =>
      match decOptPid w1, decOptStr w2, decLogEntry w3 with
      | some o, some n, some e => some (.LogEntry o n e)
      | _, _, _ => none
  | .node 33 [w1] =>
      match decPipelineId w1 with
      | some p => some (.PipelineExited p)
      | none => none
  | .node 34 [] => some .Exit
  | _ => none

set_option maxHeartbeats 2000000 in
/-- Claim C4: for every variant of `LayoutMsg` and of `ScriptMsg` and
every constructible payload, serializing the message and then
deserializing the result yields the original message. -/
theorem C4_serialization_round_trip :
    (∀ l : LayoutMsg, deserializeLayoutMsg (serializeLayoutMsg l) = some l) ∧
    (∀ m : ScriptMsg, deserializeScriptMsg (serializeScriptMsg m) = some m) := by
  refine ⟨fun l => ?_, fun m => ?_⟩
  · cases l <;> simp [serializeLayoutMsg, deserializeLayoutMsg]
  · cases m <;> simp [serializeScriptMsg, deserializeScriptMsg]
